import Mathlib

/-!
Shallow embedding of `httpie_oauth2_client_credentials.py`: the OAuth2.0
client-credentials token request builder (`__get_token`, request-construction
half), the token fetch / response parsing (`__get_token`, network half, with
the HTTP response supplied as an oracle), and the Authorization-header
decoration (`__call__`).  Strings are Lean `String`s; wire bytes are
`List Nat` (one entry per byte).  `json.loads` / `json.dumps` /
`urllib.parse.urlencode` / `base64.b64encode` are embedded below on the
fragment of behaviour the plugin exercises.
-/

/-- UTF-8 encoding of one character, as a list of byte values
(mirrors Python `str.encode('utf8')` per code point). -/
def utf8EncodeChar (c : Char) : List Nat :=
  let n := c.toNat
  if n < 0x80 then [n]
  else if n < 0x800 then [0xC0 + n / 64, 0x80 + n % 64]
  else if n < 0x10000 then [0xE0 + n / 4096, 0x80 + (n / 64) % 64, 0x80 + n % 64]
  else [0xF0 + n / 0x40000, 0x80 + (n / 4096) % 64, 0x80 + (n / 64) % 64, 0x80 + n % 64]

/-- UTF-8 encoding of a string as a byte list (Python `s.encode('utf8')`). -/
def utf8Encode (s : String) : List Nat :=
  (s.toList.map utf8EncodeChar).flatten

/-- The base64 alphabet (RFC 4648, as used by `base64.b64encode`). -/
def b64Alphabet : List Char :=
  "ABCDEFGHIJKLMNOPQRSTUVWXYZabcdefghijklmnopqrstuvwxyz0123456789+/".toList

/-- Character for a 6-bit value in base64. -/
def b64CharOf (n : Nat) : Char := b64Alphabet.getD n 'A'

/-- Base64 encoding of a byte list with `=` padding
(mirrors Python `base64.b64encode`). -/
def b64encode : List Nat → String
  | [] => ""
  | [a] =>
      String.mk [b64CharOf (a / 4), b64CharOf (a % 4 * 16), '=', '=']
  | [a, b] =>
      String.mk [b64CharOf (a / 4), b64CharOf (a % 4 * 16 + b / 16),
                 b64CharOf (b % 16 * 4), '=']
  | a :: b :: c :: rest =>
      String.mk [b64CharOf (a / 4), b64CharOf (a % 4 * 16 + b / 16),
                 b64CharOf (b % 16 * 4 + c / 64), b64CharOf (c % 64)] ++ b64encode rest

/-- Uppercase hex digit (used by percent-encoding). -/
def hexUpper (n : Nat) : Char := "0123456789ABCDEF".toList.getD n '0'

/-- Lowercase hex digit (used by `json.dumps` unicode escapes). -/
def hexLower (n : Nat) : Char := "0123456789abcdef".toList.getD n '0'

/-- Bytes left unescaped by `urllib.parse.quote_plus`:
ASCII letters, digits, and `-`, `.`, `_`, `~`. -/
def isUrlSafeByte (n : Nat) : Bool :=
  decide ((0x41 ≤ n ∧ n ≤ 0x5A) ∨ (0x61 ≤ n ∧ n ≤ 0x7A) ∨
          (0x30 ≤ n ∧ n ≤ 0x39) ∨ n = 0x2D ∨ n = 0x2E ∨ n = 0x5F ∨ n = 0x7E)

/-- `urllib.parse.quote_plus` applied to one byte of the UTF-8 encoding:
space becomes `+`, safe bytes stay, everything else becomes `%XX`. -/
def quotePlusByte (n : Nat) : String :=
  if n = 0x20 then "+"
  else if isUrlSafeByte n then String.mk [Char.ofNat n]
  else String.mk ['%', hexUpper (n / 16), hexUpper (n % 16)]

/-- `urllib.parse.quote_plus` on a string. -/
def quotePlus (s : String) : String :=
  String.join ((utf8Encode s).map quotePlusByte)

/-- `urllib.parse.urlencode` on an ordered association list:
`k1=v1&k2=v2&...` with `quote_plus` applied to keys and values. -/
def urlencodeParams (ps : List (String × String)) : String :=
  String.intercalate "&" (ps.map fun p => quotePlus p.1 ++ "=" ++ quotePlus p.2)

/-- `json.dumps` escaping of one character (`ensure_ascii=True` default):
quote and backslash get a backslash, the usual control-character short
escapes, other control and all non-ASCII characters become `\uxxxx`
(lowercase hex, surrogate pairs beyond the BMP). -/
def jsonEscapeChar (c : Char) : String :=
  let n := c.toNat
  if n = 34 then String.mk [Char.ofNat 92, Char.ofNat 34]
  else if n = 92 then String.mk [Char.ofNat 92, Char.ofNat 92]
  else if n = 8 then String.mk [Char.ofNat 92, 'b']
  else if n = 9 then String.mk [Char.ofNat 92, 't']
  else if n = 10 then String.mk [Char.ofNat 92, 'n']
  else if n = 12 then String.mk [Char.ofNat 92, 'f']
  else if n = 13 then String.mk [Char.ofNat 92, 'r']
  else if n < 0x20 then
    String.mk [Char.ofNat 92, 'u', '0', '0', hexLower (n / 16), hexLower (n % 16)]
  else if n < 0x7F then String.mk [c]
  else if n < 0x10000 then
    String.mk [Char.ofNat 92, 'u', hexLower (n / 4096), hexLower (n / 256 % 16),
               hexLower (n / 16 % 16), hexLower (n % 16)]
  else
    let m := n - 0x10000
    let hi := 0xD800 + m / 0x400
    let lo := 0xDC00 + m % 0x400
    String.mk [Char.ofNat 92, 'u', hexLower (hi / 4096), hexLower (hi / 256 % 16),
               hexLower (hi / 16 % 16), hexLower (hi % 16)] ++
    String.mk [Char.ofNat 92, 'u', hexLower (lo / 4096), hexLower (lo / 256 % 16),
               hexLower (lo / 16 % 16), hexLower (lo % 16)]

/-- `json.dumps` escaping of a whole string (without the enclosing quotes). -/
def jsonEscape (s : String) : String :=
  String.join (s.toList.map jsonEscapeChar)

/-- A JSON string literal as produced by `json.dumps`. -/
def jsonStrLit (s : String) : String :=
  String.mk [Char.ofNat 34] ++ jsonEscape s ++ String.mk [Char.ofNat 34]

/-- `json.dumps` of a flat object whose values are all strings, in insertion
order, with the default separators `", "` and `": "` — exactly the shape the
plugin serialises for `token_request_type == 'json'`. -/
def jsonDumpsObj (ps : List (String × String)) : String :=
  "\x7b" ++
    String.intercalate ", " (ps.map fun p => jsonStrLit p.1 ++ ": " ++ jsonStrLit p.2) ++
  "\x7d"

/-- JSON values, as produced by `json.loads`.  Numbers keep their source
lexeme (the plugin never computes with them).  Objects keep their members
in source order; lookup takes the last binding of a key, matching Python
dict construction where a later duplicate key wins. -/
inductive Json where
  | null : Json
  | bool : Bool → Json
  | num : String → Json
  | str : String → Json
  | arr : List Json → Json
  | obj : List (String × Json) → Json
deriving Repr

/-- Whether a JSON value is an object (a Python `dict` after `json.loads`). -/
def Json.isObj : Json → Bool
  | .obj _ => true
  | _ => false

/-- Last binding of a key in an object member list (Python dict semantics:
a duplicate key later in the JSON text overwrites an earlier one). -/
def lookupLast (k : String) : List (String × Json) → Option Json
  | [] => none
  | (k', v) :: rest =>
      match lookupLast k rest with
      | some r => some r
      | none => if k' = k then some v else none

/-- `d.get(k, default)`-style field lookup: `none` when the value is not an
object or the key is absent. -/
def Json.getField (j : Json) (k : String) : Option Json :=
  match j with
  | .obj fs => lookupLast k fs
  | _ => none

mutual

/-- Approximate Python `repr` of a parsed JSON value (only used to model
`'%s' %` formatting of non-string token fields; string quoting/escaping is
approximated). -/
def pyRepr : Json → String
  | .null => "None"
  | .bool true => "True"
  | .bool false => "False"
  | .num lx => lx
  | .str s => String.mk [Char.ofNat 39] ++ s ++ String.mk [Char.ofNat 39]
  | .arr xs => "[" ++ String.intercalate ", " (pyReprList xs) ++ "]"
  | .obj fs => "\x7b" ++ String.intercalate ", " (pyReprFields fs) ++ "\x7d"

/-- `pyRepr` over a list of values. -/
def pyReprList : List Json → List String
  | [] => []
  | x :: xs => pyRepr x :: pyReprList xs

/-- `pyRepr` over object members. -/
def pyReprFields : List (String × Json) → List String
  | [] => []
  | (k, v) :: fs =>
      (String.mk [Char.ofNat 39] ++ k ++ String.mk [Char.ofNat 39] ++ ": " ++ pyRepr v)
        :: pyReprFields fs

end

/-- Python `str()` of a parsed JSON value (`'%s' % x`): a string is itself,
other values print as their repr. -/
def pyStr : Json → String
  | .str s => s
  | j => pyRepr j

/-! ### A `json.loads` embedding

The parser works over the list of Unicode code points of the body text
(`List Nat`), with a fuel argument bounded by the input length.  It follows
the JSON grammar as accepted by Python's `json.loads`: the four whitespace
characters, `null` / `true` / `false` (plus `NaN` / `Infinity` /
`-Infinity`, which `json.loads` accepts by default), strings with the
standard escapes and `\uXXXX` (surrogate pairs combined; a lone surrogate
is approximated by U+FFFD), numbers, arrays, and objects. -/

/-- Skip JSON whitespace (space, tab, newline, carriage return). -/
def skipWs : List Nat → List Nat
  | [] => []
  | c :: cs => if c = 32 ∨ c = 9 ∨ c = 10 ∨ c = 13 then skipWs cs else c :: cs

/-- Consume an expected run of code points, returning the remainder. -/
def dropKeyword : List Nat → List Nat → Option (List Nat)
  | [], cs => some cs
  | k :: ks, c :: cs => if c = k then dropKeyword ks cs else none
  | _ :: _, [] => none

/-- The code points of a string (for keyword tables). -/
def codePoints (s : String) : List Nat := s.toList.map Char.toNat

/-- Value of one hex digit code point. -/
def hexVal (c : Nat) : Option Nat :=
  if 48 ≤ c ∧ c ≤ 57 then some (c - 48)
  else if 97 ≤ c ∧ c ≤ 102 then some (c - 87)
  else if 65 ≤ c ∧ c ≤ 70 then some (c - 55)
  else none

/-- Value of four hex digit code points. -/
def hex4Val (a b c d : Nat) : Option Nat :=
  match hexVal a, hexVal b, hexVal c, hexVal d with
  | some x, some y, some z, some w => some (x * 4096 + y * 256 + z * 16 + w)
  | _, _, _, _ => none

/-- Prepend a code point to a pending string-parse result. -/
def consPoint (c : Nat) : Option (List Nat × List Nat) → Option (List Nat × List Nat)
  | some (s, rest) => some (c :: s, rest)
  | none => none

/-- Parse a JSON string body (after the opening quote): returns the decoded
code points and the remainder after the closing quote.  Raw control
characters are rejected, as in strict-mode `json.loads`.  The fuel argument
only bounds recursion; callers pass the input length plus one, which every
step consumes at least one code point of. -/
def parseStringBody : Nat → List Nat → Option (List Nat × List Nat)
  | 0, _ => none
  | _ + 1, 34 :: cs => some ([], cs)
  | fuel + 1, 92 :: 34 :: cs => consPoint 34 (parseStringBody fuel cs)
  | fuel + 1, 92 :: 92 :: cs => consPoint 92 (parseStringBody fuel cs)
  | fuel + 1, 92 :: 47 :: cs => consPoint 47 (parseStringBody fuel cs)
  | fuel + 1, 92 :: 98 :: cs => consPoint 8 (parseStringBody fuel cs)
  | fuel + 1, 92 :: 102 :: cs => consPoint 12 (parseStringBody fuel cs)
  | fuel + 1, 92 :: 110 :: cs => consPoint 10 (parseStringBody fuel cs)
  | fuel + 1, 92 :: 114 :: cs => consPoint 13 (parseStringBody fuel cs)
  | fuel + 1, 92 :: 116 :: cs => consPoint 9 (parseStringBody fuel cs)
  | fuel + 1, 92 :: 117 :: h1 :: h2 :: h3 :: h4 :: rest =>
      match hex4Val h1 h2 h3 h4 with
      | none => none
      | some n =>
          if 0xD800 ≤ n ∧ n ≤ 0xDBFF then
            match rest with
            | 92 :: 117 :: g1 :: g2 :: g3 :: g4 :: rest2 =>
                match hex4Val g1 g2 g3 g4 with
                | some m =>
                    if 0xDC00 ≤ m ∧ m ≤ 0xDFFF then
                      consPoint (0x10000 + (n - 0xD800) * 0x400 + (m - 0xDC00))
                        (parseStringBody fuel rest2)
                    else
                      consPoint 0xFFFD
                        (parseStringBody fuel (92 :: 117 :: g1 :: g2 :: g3 :: g4 :: rest2))
                | none =>
                    consPoint 0xFFFD
                      (parseStringBody fuel (92 :: 117 :: g1 :: g2 :: g3 :: g4 :: rest2))
            | other => consPoint 0xFFFD (parseStringBody fuel other)
          else if 0xDC00 ≤ n ∧ n ≤ 0xDFFF then consPoint 0xFFFD (parseStringBody fuel rest)
          else consPoint n (parseStringBody fuel rest)
  | _ + 1, 92 :: _ => none
  | fuel + 1, c :: cs => if c < 32 then none else consPoint c (parseStringBody fuel cs)
  | _ + 1, [] => none

/-- Take a maximal run of decimal digits. -/
def takeDigits : List Nat → List Nat × List Nat
  | c :: cs =>
      if 48 ≤ c ∧ c ≤ 57 then
        match takeDigits cs with
        | (ds, rest) => (c :: ds, rest)
      else ([], c :: cs)
  | [] => ([], [])

/-- Parse the integer part of a JSON number: `0`, or a nonzero digit
followed by digits. -/
def parseIntPart : List Nat → Option (List Nat × List Nat)
  | 48 :: cs => some ([48], cs)
  | c :: cs =>
      if 49 ≤ c ∧ c ≤ 57 then
        match takeDigits cs with
        | (ds, rest) => some (c :: ds, rest)
      else none
  | [] => none

/-- Parse the optional fraction and exponent parts of a JSON number,
returning consumed code points and the remainder (consuming nothing when
the parts are absent or malformed, in which case any stray characters make
the surrounding parse fail). -/
def parseFracExp (cs : List Nat) : List Nat × List Nat :=
  let fr : List Nat × List Nat :=
    match cs with
    | 46 :: t =>
        match takeDigits t with
        | ([], _) => ([], cs)
        | (ds, rest) => (46 :: ds, rest)
    | _ => ([], cs)
  let cs1 := fr.2
  let ex : List Nat × List Nat :=
    match cs1 with
    | e :: t =>
        if e = 101 ∨ e = 69 then
          match t with
          | s :: t2 =>
              if s = 43 ∨ s = 45 then
                match takeDigits t2 with
                | ([], _) => ([], cs1)
                | (ds, rest) => (e :: s :: ds, rest)
              else
                match takeDigits t with
                | ([], _) => ([], cs1)
                | (ds, rest) => (e :: ds, rest)
          | [] => ([], cs1)
        else ([], cs1)
    | [] => ([], cs1)
  (fr.1 ++ ex.1, ex.2)

/-- Build a string from code points. -/
def stringOfPoints (l : List Nat) : String := String.mk (l.map Char.ofNat)

/-- Parse a JSON number (or `-Infinity`), keeping its lexeme. -/
def parseNumber (cs : List Nat) : Option (Json × List Nat) :=
  match cs with
  | 45 :: t =>
      match dropKeyword (codePoints "Infinity") t with
      | some rest => some (.num "-Infinity", rest)
      | none =>
          match parseIntPart t with
          | some (ip, rest) =>
              match parseFracExp rest with
              | (fe, rest2) => some (.num (stringOfPoints (45 :: ip ++ fe)), rest2)
          | none => none
  | _ =>
      match parseIntPart cs with
      | some (ip, rest) =>
          match parseFracExp rest with
          | (fe, rest2) => some (.num (stringOfPoints (ip ++ fe)), rest2)
      | none => none

mutual

/-- Parse one JSON value (fuelled; fuel bounded by the input length). -/
def parseValue : Nat → List Nat → Option (Json × List Nat)
  | 0, _ => none
  | fuel + 1, cs =>
      match skipWs cs with
      | [] => none
      | 110 :: t =>
          match dropKeyword (codePoints "ull") t with
          | some rest => some (Json.null, rest)
          | none => none
      | 116 :: t =>
          match dropKeyword (codePoints "rue") t with
          | some rest => some (Json.bool true, rest)
          | none => none
      | 102 :: t =>
          match dropKeyword (codePoints "alse") t with
          | some rest => some (Json.bool false, rest)
          | none => none
      | 78 :: t =>
          match dropKeyword (codePoints "aN") t with
          | some rest => some (Json.num "NaN", rest)
          | none => none
      | 73 :: t =>
          match dropKeyword (codePoints "nfinity") t with
          | some rest => some (Json.num "Infinity", rest)
          | none => none
      | 34 :: t =>
          match parseStringBody (t.length + 1) t with
          | some (pts, rest) => some (Json.str (stringOfPoints pts), rest)
          | none => none
      | 91 :: t =>
          match skipWs t with
          | 93 :: rest => some (Json.arr [], rest)
          | t2 =>
              match parseItems fuel t2 with
              | some (xs, rest) => some (Json.arr xs, rest)
              | none => none
      | 123 :: t =>
          match skipWs t with
          | 125 :: rest => some (Json.obj [], rest)
          | t2 =>
              match parseMembers fuel t2 with
              | some (ms, rest) => some (Json.obj ms, rest)
              | none => none
      | c :: t => parseNumber (c :: t)

/-- Parse the elements of a non-empty JSON array, up to and including the
closing bracket. -/
def parseItems : Nat → List Nat → Option (List Json × List Nat)
  | 0, _ => none
  | fuel + 1, cs =>
      match parseValue fuel cs with
      | none => none
      | some (j, rest) =>
          match skipWs rest with
          | 44 :: rest2 =>
              match parseItems fuel rest2 with
              | some (js, rest3) => some (j :: js, rest3)
              | none => none
          | 93 :: rest2 => some ([j], rest2)
          | _ => none

/-- Parse the members of a non-empty JSON object, up to and including the
closing brace. -/
def parseMembers : Nat → List Nat → Option (List (String × Json) × List Nat)
  | 0, _ => none
  | fuel + 1, cs =>
      match skipWs cs with
      | 34 :: t =>
          match parseStringBody (t.length + 1) t with
          | none => none
          | some (kpts, rest) =>
              match skipWs rest with
              | 58 :: rest2 =>
                  match parseValue fuel rest2 with
                  | none => none
                  | some (v, rest3) =>
                      match skipWs rest3 with
                      | 44 :: rest4 =>
                          match parseMembers fuel rest4 with
                          | some (ms, rest5) =>
                              some ((stringOfPoints kpts, v) :: ms, rest5)
                          | none => none
                      | 125 :: rest4 => some ([(stringOfPoints kpts, v)], rest4)
                      | _ => none
              | _ => none
      | _ => none

end

/-- `json.loads` on a body text: parse one value and require only
whitespace to remain. -/
def parseJson (s : String) : Option Json :=
  let cs := codePoints s
  match parseValue (cs.length + 2) cs with
  | some (j, rest) => if skipWs rest = [] then some j else none
  | none => none

/-! ### The plugin itself

`Config` gathers the fields `OAuth2ClientCredentials.__init__` stores:
`client_id` / `client_secret` (httpie's username/password), and the parsed
command-line options `token_endpoint` (empty string for the `None`
default), `token_request_type`, `scope` (`Option` for the `None` default),
and `print_token_response`. -/

structure Config where
  client_id : String
  client_secret : String
  token_endpoint : String
  token_request_type : String
  scope : Option String
  print_token_response : Bool
deriving Repr

/-- The error surface of one authorization attempt, named as in the spec's
taxonomy; each constructor corresponds to an exception the source raises:
`configurationError` to the `ValueError`s of `__init__` / `__get_token`,
`tokenError` to the re-raised `HTTPError` (status plus body), and
`malformedResponse` to the `json.JSONDecodeError` escaping from
`json.loads` on a 2xx body. -/
inductive ErrBody where
  | json : Json → ErrBody
  | raw : String → ErrBody
deriving Repr

inductive OAuthError where
  | configurationError : String → OAuthError
  | tokenError : Nat → ErrBody → OAuthError
  | malformedResponse : OAuthError
deriving Repr

/-- The error body as the spec's `TokenError` carries it: the JSON-parsed
mapping when the body text is valid JSON, the raw text otherwise. -/
def classifyBody (s : String) : ErrBody :=
  match parseJson s with
  | some j => .json j
  | none => .raw s

/-- The token request `__get_token` constructs: POST to the endpoint with
header mapping (insertion order) and body bytes. -/
structure TokenRequest where
  url : String
  method : String
  headers : List (String × String)
  body : List Nat
deriving Repr

/-- The `post_params` dict before credentials are added:
`{'grant_type': 'client_credentials'}` plus `scope` when `self.scope` is
truthy (present and non-empty). -/
def tokenParams (scope : Option String) : List (String × String) :=
  ("grant_type", "client_credentials") ::
    (match scope with
     | none => []
     | some s => if s = "" then [] else [("scope", s)])

/-- `post_params` after the non-basic branch adds the credentials. -/
def formParams (cfg : Config) : List (String × String) :=
  tokenParams cfg.scope ++
    [("client_id", cfg.client_id), ("client_secret", cfg.client_secret)]

/-- The `Basic` credential token:
`b64encode(('client_id:client_secret').encode('utf8'))`. -/
def basicToken (client_id client_secret : String) : String :=
  b64encode (utf8Encode (client_id ++ ":" ++ client_secret))

/-- Request construction: the validation in `__init__` (empty `client_id`,
`client_secret`, `token_endpoint` each raise `ValueError`, in that order)
followed by the header/body assembly at the top of `__get_token`, including
the `ValueError` for an unrecognised `token_request_type`.  No network is
involved. -/
def buildTokenRequest (cfg : Config) : Except OAuthError TokenRequest :=
  if cfg.client_id = "" then .error (.configurationError "client_id is required.")
  else if cfg.client_secret = "" then
    .error (.configurationError "client_secret is required.")
  else if cfg.token_endpoint = "" then
    .error (.configurationError "token_endpoint is required.")
  else if cfg.token_request_type = "basic" then
    .ok { url := cfg.token_endpoint, method := "POST",
          headers := [("Content-Type", "application/x-www-form-urlencoded"),
                      ("Authorization",
                        "Basic " ++ basicToken cfg.client_id cfg.client_secret)],
          body := utf8Encode (urlencodeParams (tokenParams cfg.scope)) }
  else if cfg.token_request_type = "form" then
    .ok { url := cfg.token_endpoint, method := "POST",
          headers := [("Content-Type", "application/x-www-form-urlencoded")],
          body := utf8Encode (urlencodeParams (formParams cfg)) }
  else if cfg.token_request_type = "json" then
    .ok { url := cfg.token_endpoint, method := "POST",
          headers := [("Content-Type", "application/json")],
          body := utf8Encode (jsonDumpsObj (formParams cfg)) }
  else .error (.configurationError "token-request-type is invalid value.")

/-- The body of the request `buildTokenRequest` constructs, when it
constructs one. -/
def builtBody (cfg : Config) : Option (List Nat) :=
  match buildTokenRequest cfg with
  | .ok r => some r.body
  | .error _ => none

/-- The token endpoint's HTTP answer, supplied as an oracle: final status
code and decoded body text.  `urlopen` returns normally on 2xx and raises
`HTTPError` otherwise. -/
structure HttpResponse where
  status : Nat
  body : String
deriving Repr

/-- What `__get_token` writes to stdout/stderr, kept as structured events
(the information printed, not the exact formatting). -/
inductive LogEvent where
  | successResponse : Json → LogEvent
  | errorStatus : Nat → LogEvent
  | errorJsonBody : Json → LogEvent
  | errorRawBody : String → LogEvent
deriving Repr

/-- The network half of `__get_token`, given the endpoint's response:
on 2xx, `json.loads` the body (its `JSONDecodeError` escapes uncaught —
`malformedResponse`), optionally print it, and return it; on any other
status, optionally print the status and the JSON-parsed-else-raw body,
and re-raise the `HTTPError` (`tokenError` with status and body). -/
def fetchToken (verbose : Bool) (resp : HttpResponse) :
    Except OAuthError Json × List LogEvent :=
  if 200 ≤ resp.status ∧ resp.status ≤ 299 then
    match parseJson resp.body with
    | none => (.error .malformedResponse, [])
    | some j => (.ok j, if verbose then [LogEvent.successResponse j] else [])
  else
    let log :=
      if verbose then
        LogEvent.errorStatus resp.status ::
          (match parseJson resp.body with
           | some j => [LogEvent.errorJsonBody j]
           | none => [LogEvent.errorRawBody resp.body])
      else []
    (.error (.tokenError resp.status (classifyBody resp.body)), log)

/-- Outcome of one authorization attempt: the returned token response or
the raised error, the number of network round trips made, and the
diagnostic output. -/
structure AuthOutcome where
  result : Except OAuthError Json
  networkCalls : Nat
  log : List LogEvent
deriving Repr

/-- One `__get_token` call end to end: validate and build the request
(no network); if that failed, the error propagates with zero network
calls; otherwise exactly one request is sent and the response handled. -/
def runTokenFlow (cfg : Config) (resp : HttpResponse) : AuthOutcome :=
  match buildTokenRequest cfg with
  | .error e => { result := .error e, networkCalls := 0, log := [] }
  | .ok _ =>
      let out := fetchToken cfg.print_token_response resp
      { result := out.1, networkCalls := 1, log := out.2 }

/-- The outgoing request being authenticated (httpie's prepared request):
its headers behave as a case-insensitive dict. -/
structure OutRequest where
  method : String
  url : String
  headers : List (String × String)
  body : String
deriving Repr

/-- ASCII lowercase of one character (`str.lower` on the ASCII header
names at play). -/
def lowerChar (c : Char) : Char :=
  if 65 ≤ c.toNat ∧ c.toNat ≤ 90 then Char.ofNat (c.toNat + 32) else c

/-- ASCII lowercase of a string (key normalisation of requests'
`CaseInsensitiveDict`). -/
def lowerStr (s : String) : String :=
  String.mk (s.toList.map lowerChar)

/-- Case-insensitive header lookup (requests' `CaseInsensitiveDict`). -/
def lookupCI (k : String) : List (String × String) → Option String
  | [] => none
  | (k', v) :: rest => if lowerStr k' = lowerStr k then some v else lookupCI k rest

/-- Case-insensitive header assignment: replace the first entry whose key
matches case-insensitively (keeping the new key's casing, as
`CaseInsensitiveDict.__setitem__` does), else append. -/
def setHeaderCI (k v : String) : List (String × String) → List (String × String)
  | [] => [(k, v)]
  | (k', v') :: rest =>
      if lowerStr k' = lowerStr k then (k, v) :: rest
      else (k', v') :: setHeaderCI k v rest

/-- `token_response.get('token_type', 'Bearer')`, formatted with `%s`. -/
def tokenTypeOf (tr : Json) : String :=
  match tr.getField "token_type" with
  | some v => pyStr v
  | none => "Bearer"

/-- `token_response.get('access_token', '')`, formatted with `%s`. -/
def accessTokenOf (tr : Json) : String :=
  match tr.getField "access_token" with
  | some v => pyStr v
  | none => ""

/-- The header value `'%s %s' % (token_type, token)`. -/
def authHeaderValue (tr : Json) : String :=
  tokenTypeOf tr ++ " " ++ accessTokenOf tr

/-- The decoration `__call__` performs on the outgoing request after a
successful token fetch: `request.headers['Authorization'] = ...`; nothing
else on the request is touched. -/
def decorate (req : OutRequest) (tr : Json) : OutRequest :=
  { req with headers := setHeaderCI "Authorization" (authHeaderValue tr) req.headers }

/-- First-match lookup in an ordered association list of strings (the
`post_params` dict: keys are the distinct literals `grant_type`, `scope`,
`client_id`, `client_secret`). -/
def lookupStr (k : String) : List (String × String) → Option String
  | [] => none
  | (k', v) :: rest => if k' = k then some v else lookupStr k rest

/-- Example configurations and inputs used to instantiate the theorems. -/
def exCfgBasic : Config :=
  { client_id := "id", client_secret := "sec", token_endpoint := "https://ep",
    token_request_type := "basic", scope := none, print_token_response := false }

def exCfgForm : Config := { exCfgBasic with token_request_type := "form" }

def exCfgJson : Config := { exCfgBasic with token_request_type := "json" }

def exCfgXml : Config := { exCfgBasic with token_request_type := "xml" }

def exCfgNoId : Config := { exCfgBasic with client_id := "" }

def exOutReq : OutRequest :=
  { method := "GET", url := "https://api.example/x",
    headers := [("Accept", "application/json"), ("Authorization", "old")],
    body := "" }

def exTokenObj : Json :=
  .obj [("access_token", .str "abc123"), ("token_type", .str "Bearer")]

def exTokenObj2 : Json := .obj [("access_token", .str "xyz")]

/-- The request built from `exCfgBasic` (build succeeds there). -/
def exBuiltReq : TokenRequest :=
  match buildTokenRequest exCfgBasic with
  | .ok r => r
  | .error _ => { url := "", method := "", headers := [], body := [] }

/-! ### Helper lemmas about case-insensitive header assignment -/

/-- After setting a header, looking it up (case-insensitively) yields the
new value. -/
theorem lookupCI_setHeaderCI_same (k v : String) (hs : List (String × String)) :
    lookupCI k (setHeaderCI k v hs) = some v := by
  induction hs with
  | nil => simp [setHeaderCI, lookupCI]
  | cons p rest ih =>
      obtain ⟨k', v'⟩ := p
      by_cases h : lowerStr k' = lowerStr k
      · simp [setHeaderCI, lookupCI, h]
      · simp [setHeaderCI, lookupCI, h, ih]

/-- Setting one header leaves the (case-insensitive) lookup of every other
header unchanged. -/
theorem lookupCI_setHeaderCI_other (k k2 v : String) (hs : List (String × String))
    (h : lowerStr k2 ≠ lowerStr k) :
    lookupCI k2 (setHeaderCI k v hs) = lookupCI k2 hs := by
  induction hs with
  | nil => simp [setHeaderCI, lookupCI, Ne.symm h]
  | cons p rest ih =>
      obtain ⟨k', v'⟩ := p
      by_cases h1 : lowerStr k' = lowerStr k
      · have h2 : ¬ lowerStr k = lowerStr k2 := Ne.symm h
        have h3 : ¬ lowerStr k' = lowerStr k2 := fun hh => h (hh ▸ h1)
        simp [setHeaderCI, lookupCI, h1, h2, h3]
      · simp [setHeaderCI, lookupCI, h1, ih]

/-! ### Claims -/

/-- C1: for every non-empty `client_id` and `client_secret` with
`request_mode=basic`, the built token request carries
`Content-Type: application/x-www-form-urlencoded` and
`Authorization: Basic <base64(client_id ++ ":" ++ client_secret)>`, and its
body is the url-encoded form of `grant_type=client_credentials` plus
`scope` exactly when scope is present and non-empty; the body is built from
a parameter list that never mentions the credentials, and is byte-identical
across all credential values. -/
theorem basic_mode_request_shape (cfg : Config)
    (hid : cfg.client_id ≠ "") (hsec : cfg.client_secret ≠ "")
    (hep : cfg.token_endpoint ≠ "") (hmode : cfg.token_request_type = "basic") :
    buildTokenRequest cfg = .ok
      { url := cfg.token_endpoint, method := "POST",
        headers := [("Content-Type", "application/x-www-form-urlencoded"),
                    ("Authorization", "Basic " ++
                      b64encode (utf8Encode (cfg.client_id ++ ":" ++ cfg.client_secret)))],
        body := utf8Encode (urlencodeParams (tokenParams cfg.scope)) } ∧
    (tokenParams cfg.scope).map Prod.fst =
      "grant_type" ::
        (match cfg.scope with
         | some s => if s = "" then [] else ["scope"]
         | none => []) ∧
    lookupStr "grant_type" (tokenParams cfg.scope) = some "client_credentials" ∧
    lookupStr "scope" (tokenParams cfg.scope) =
      (match cfg.scope with
       | some s => if s = "" then none else some s
       | none => none) ∧
    (∀ id' sec' : String, id' ≠ "" → sec' ≠ "" →
      builtBody { cfg with client_id := id', client_secret := sec' } = builtBody cfg) := by
  refine ⟨?_, ?_, ?_, ?_, ?_⟩
  · simp [buildTokenRequest, hid, hsec, hep, hmode, basicToken]
  · rcases hsc : cfg.scope with _ | s
    · simp [tokenParams]
    · by_cases hs : s = "" <;> simp [tokenParams, hs]
  · rcases hsc : cfg.scope with _ | s
    · simp [tokenParams, lookupStr]
    · by_cases hs : s = "" <;> simp [tokenParams, lookupStr, hs]
  · rcases hsc : cfg.scope with _ | s
    · simp [tokenParams, lookupStr]
    · by_cases hs : s = "" <;> simp [tokenParams, lookupStr, hs]
  · intro id' sec' hid' hsec'
    simp [builtBody, buildTokenRequest, hid', hsec', hid, hsec, hep, hmode]

/-- C1 witness: the theorem instantiated at a concrete basic-mode
configuration. -/
theorem basic_mode_request_shape_witness :
    buildTokenRequest exCfgBasic = .ok
      { url := exCfgBasic.token_endpoint, method := "POST",
        headers := [("Content-Type", "application/x-www-form-urlencoded"),
                    ("Authorization", "Basic " ++
                      b64encode (utf8Encode (exCfgBasic.client_id ++ ":" ++ exCfgBasic.client_secret)))],
        body := utf8Encode (urlencodeParams (tokenParams exCfgBasic.scope)) } :=
  (basic_mode_request_shape exCfgBasic (by decide) (by decide) (by decide) rfl).1

/-- C2: on any HTTP status outside 200–299 the fetch fails with a
`TokenError` carrying that status and the JSON-parsed-else-raw body, the
error reaches the caller of the flow, and in particular a 400 with body
`{"error":"invalid_client"}` surfaces with the parsed mapping while a 500
with body `internal error` surfaces with the raw text. -/
theorem token_error_propagation (verbose : Bool) (resp : HttpResponse)
    (hst : ¬ (200 ≤ resp.status ∧ resp.status ≤ 299)) :
    (fetchToken verbose resp).1 =
      .error (.tokenError resp.status (classifyBody resp.body)) ∧
    (∀ j, parseJson resp.body = some j → classifyBody resp.body = .json j) ∧
    (parseJson resp.body = none → classifyBody resp.body = .raw resp.body) ∧
    (∀ cfg : Config, ∀ r, buildTokenRequest cfg = .ok r →
      (runTokenFlow cfg resp).result =
        .error (.tokenError resp.status (classifyBody resp.body)) ∧
      (runTokenFlow cfg resp).networkCalls = 1) ∧
    (fetchToken verbose { status := 400, body := "\x7b\"error\":\"invalid_client\"\x7d" }).1 =
      .error (.tokenError 400 (.json (.obj [("error", .str "invalid_client")]))) ∧
    (fetchToken verbose { status := 500, body := "internal error" }).1 =
      .error (.tokenError 500 (.raw "internal error")) := by
  refine ⟨?_, ?_, ?_, ?_, ?_, ?_⟩
  · simp [fetchToken, hst]
  · intro j hj; simp [classifyBody, hj]
  · intro hn; simp [classifyBody, hn]
  · intro cfg r hr
    constructor
    · simp [runTokenFlow, hr, fetchToken, hst]
    · simp [runTokenFlow, hr]
  · cases verbose <;> rfl
  · cases verbose <;> rfl

/-- C2 witness: the theorem instantiated at a concrete 404 response. -/
theorem token_error_propagation_witness :
    (fetchToken false { status := 404, body := "nope" }).1 =
      .error (.tokenError 404 (.raw "nope")) :=
  (token_error_propagation false { status := 404, body := "nope" } (by decide)).1

/-- C3: whenever `token_request_type` is none of `basic` / `form` / `json`,
request construction fails with a `ConfigurationError` (the exact
`ValueError` message when the other inputs are present), and no network
call is ever made for such a configuration. -/
theorem invalid_request_mode_rejected (cfg : Config)
    (hmode : cfg.token_request_type ≠ "basic" ∧ cfg.token_request_type ≠ "form" ∧
             cfg.token_request_type ≠ "json") :
    (∃ msg, buildTokenRequest cfg = .error (.configurationError msg)) ∧
    (cfg.client_id ≠ "" → cfg.client_secret ≠ "" → cfg.token_endpoint ≠ "" →
      buildTokenRequest cfg =
        .error (.configurationError "token-request-type is invalid value.")) ∧
    (∀ resp, (runTokenFlow cfg resp).networkCalls = 0) := by
  obtain ⟨h1, h2, h3⟩ := hmode
  have hb : ∃ msg, buildTokenRequest cfg = .error (.configurationError msg) := by
    by_cases hid : cfg.client_id = ""
    · exact ⟨"client_id is required.", by simp [buildTokenRequest, hid]⟩
    · by_cases hsec : cfg.client_secret = ""
      · exact ⟨"client_secret is required.", by simp [buildTokenRequest, hid, hsec]⟩
      · by_cases hep : cfg.token_endpoint = ""
        · exact ⟨"token_endpoint is required.", by simp [buildTokenRequest, hid, hsec, hep]⟩
        · exact ⟨"token-request-type is invalid value.",
            by simp [buildTokenRequest, hid, hsec, hep, h1, h2, h3]⟩
  refine ⟨hb, ?_, ?_⟩
  · intro hid hsec hep
    simp [buildTokenRequest, hid, hsec, hep, h1, h2, h3]
  · intro resp
    obtain ⟨msg, hm⟩ := hb
    simp [runTokenFlow, hm]

/-- C3 witness: the theorem instantiated at `token_request_type = "xml"`. -/
theorem invalid_request_mode_rejected_witness :
    buildTokenRequest exCfgXml =
      .error (.configurationError "token-request-type is invalid value.") :=
  (invalid_request_mode_rejected exCfgXml
      ⟨by decide, by decide, by decide⟩).2.1 (by decide) (by decide) (by decide)

/-- C4: for every non-empty `client_id` and `client_secret`, `form` mode
builds a url-encoded body with `Content-Type:
application/x-www-form-urlencoded` and `json` mode a JSON object body with
`Content-Type: application/json`, both over exactly the keys `grant_type`
(value `client_credentials`), `client_id`, `client_secret`, and `scope`
precisely when scope is present and non-empty, in the same order. -/
theorem form_json_mode_request_shape (cfg : Config)
    (hid : cfg.client_id ≠ "") (hsec : cfg.client_secret ≠ "")
    (hep : cfg.token_endpoint ≠ "") :
    (cfg.token_request_type = "form" →
      buildTokenRequest cfg = .ok
        { url := cfg.token_endpoint, method := "POST",
          headers := [("Content-Type", "application/x-www-form-urlencoded")],
          body := utf8Encode (urlencodeParams (formParams cfg)) }) ∧
    (cfg.token_request_type = "json" →
      buildTokenRequest cfg = .ok
        { url := cfg.token_endpoint, method := "POST",
          headers := [("Content-Type", "application/json")],
          body := utf8Encode (jsonDumpsObj (formParams cfg)) }) ∧
    (formParams cfg).map Prod.fst =
      "grant_type" ::
        ((match cfg.scope with
          | some s => if s = "" then [] else ["scope"]
          | none => []) ++ ["client_id", "client_secret"]) ∧
    lookupStr "grant_type" (formParams cfg) = some "client_credentials" ∧
    lookupStr "client_id" (formParams cfg) = some cfg.client_id ∧
    lookupStr "client_secret" (formParams cfg) = some cfg.client_secret ∧
    lookupStr "scope" (formParams cfg) =
      (match cfg.scope with
       | some s => if s = "" then none else some s
       | none => none) := by
  refine ⟨?_, ?_, ?_, ?_, ?_, ?_, ?_⟩
  · intro hm; simp [buildTokenRequest, hid, hsec, hep, hm]
  · intro hm; simp [buildTokenRequest, hid, hsec, hep, hm]
  · rcases hsc : cfg.scope with _ | s
    · simp [formParams, tokenParams, hsc]
    · by_cases hs : s = "" <;> simp [formParams, tokenParams, hsc, hs]
  · rcases hsc : cfg.scope with _ | s
    · simp [formParams, tokenParams, lookupStr, hsc]
    · by_cases hs : s = "" <;> simp [formParams, tokenParams, lookupStr, hsc, hs]
  · rcases hsc : cfg.scope with _ | s
    · simp [formParams, tokenParams, lookupStr, hsc]
    · by_cases hs : s = "" <;> simp [formParams, tokenParams, lookupStr, hsc, hs]
  · rcases hsc : cfg.scope with _ | s
    · simp [formParams, tokenParams, lookupStr, hsc]
    · by_cases hs : s = "" <;> simp [formParams, tokenParams, lookupStr, hsc, hs]
  · rcases hsc : cfg.scope with _ | s
    · simp [formParams, tokenParams, lookupStr, hsc]
    · by_cases hs : s = "" <;> simp [formParams, tokenParams, lookupStr, hsc, hs]

/-- C4 witness: the theorem instantiated at concrete form- and json-mode
configurations. -/
theorem form_json_mode_request_shape_witness :
    buildTokenRequest exCfgForm = .ok
      { url := exCfgForm.token_endpoint, method := "POST",
        headers := [("Content-Type", "application/x-www-form-urlencoded")],
        body := utf8Encode (urlencodeParams (formParams exCfgForm)) } ∧
    buildTokenRequest exCfgJson = .ok
      { url := exCfgJson.token_endpoint, method := "POST",
        headers := [("Content-Type", "application/json")],
        body := utf8Encode (jsonDumpsObj (formParams exCfgJson)) } :=
  ⟨(form_json_mode_request_shape exCfgForm (by decide) (by decide) (by decide)).1 rfl,
   (form_json_mode_request_shape exCfgJson (by decide) (by decide) (by decide)).2.1 rfl⟩

/-- C5: whenever `client_id`, `client_secret`, or `token_endpoint` is
empty, the attempt fails with a `ConfigurationError` and zero network
calls are made, whatever the endpoint would have answered. -/
theorem empty_config_no_network (cfg : Config) (resp : HttpResponse)
    (h : cfg.client_id = "" ∨ cfg.client_secret = "" ∨ cfg.token_endpoint = "") :
    (∃ msg, (runTokenFlow cfg resp).result = .error (.configurationError msg)) ∧
    (runTokenFlow cfg resp).networkCalls = 0 := by
  have hb : ∃ msg, buildTokenRequest cfg = .error (.configurationError msg) := by
    by_cases h1 : cfg.client_id = ""
    · exact ⟨"client_id is required.", by simp [buildTokenRequest, h1]⟩
    · by_cases h2 : cfg.client_secret = ""
      · exact ⟨"client_secret is required.", by simp [buildTokenRequest, h1, h2]⟩
      · have h3 : cfg.token_endpoint = "" := by tauto
        exact ⟨"token_endpoint is required.", by simp [buildTokenRequest, h1, h2, h3]⟩
  obtain ⟨msg, hm⟩ := hb
  exact ⟨⟨msg, by simp [runTokenFlow, hm]⟩, by simp [runTokenFlow, hm]⟩

/-- C5 witness: the theorem instantiated at an empty `client_id`. -/
theorem empty_config_no_network_witness :
    (runTokenFlow exCfgNoId { status := 200, body := "x" }).networkCalls = 0 :=
  (empty_config_no_network exCfgNoId { status := 200, body := "x" } (Or.inl rfl)).2

/-- C6: for every successful (object) token response, the decorated
request's `Authorization` header is `token_type ++ " " ++ access_token`,
with `token_type` defaulting to `Bearer` and `access_token` to the empty
string when absent; in particular
`{"access_token":"abc123","token_type":"Bearer"}` yields
`Authorization: Bearer abc123` and `{"access_token":"xyz"}` yields
`Authorization: Bearer xyz`. -/
theorem decorate_sets_bearer_header (req : OutRequest) (tr : Json)
    (_hobj : tr.isObj = true) :
    lookupCI "Authorization" (decorate req tr).headers =
      some (tokenTypeOf tr ++ " " ++ accessTokenOf tr) ∧
    (tr.getField "token_type" = none → tokenTypeOf tr = "Bearer") ∧
    (tr.getField "access_token" = none → accessTokenOf tr = "") ∧
    lookupCI "Authorization"
      (decorate req (Json.obj [("access_token", .str "abc123"),
                               ("token_type", .str "Bearer")])).headers
      = some "Bearer abc123" ∧
    lookupCI "Authorization" (decorate req (Json.obj [("access_token", .str "xyz")])).headers
      = some "Bearer xyz" := by
  refine ⟨?_, ?_, ?_, ?_, ?_⟩
  · exact lookupCI_setHeaderCI_same "Authorization" (authHeaderValue tr) req.headers
  · intro hn; simp [tokenTypeOf, hn]
  · intro hn; simp [accessTokenOf, hn]
  · exact lookupCI_setHeaderCI_same "Authorization" _ req.headers
  · exact lookupCI_setHeaderCI_same "Authorization" _ req.headers

/-- C6 witness: the theorem instantiated at a concrete request and token
response. -/
theorem decorate_sets_bearer_header_witness :
    lookupCI "Authorization" (decorate exOutReq exTokenObj).headers = some "Bearer abc123" :=
  (decorate_sets_bearer_header exOutReq exTokenObj rfl).1

/-- C7: a 2xx response whose body is not valid JSON makes the fetch fail
with `MalformedResponseError`, and the error reaches the caller of the
flow when the request was built. -/
theorem malformed_2xx_response (verbose : Bool) (cfg : Config) (resp : HttpResponse)
    (hst : 200 ≤ resp.status ∧ resp.status ≤ 299)
    (hbody : parseJson resp.body = none) :
    (fetchToken verbose resp).1 = .error .malformedResponse ∧
    (∀ r, buildTokenRequest cfg = .ok r →
      (runTokenFlow cfg resp).result = .error .malformedResponse) := by
  constructor
  · simp [fetchToken, hst, hbody]
  · intro r hr
    simp [runTokenFlow, hr, fetchToken, hst, hbody]

/-- C7 witness: the theorem instantiated at a 200 response with a non-JSON
body. -/
theorem malformed_2xx_response_witness :
    (fetchToken false { status := 200, body := "internal error" }).1 =
      .error .malformedResponse :=
  (malformed_2xx_response false exCfgBasic { status := 200, body := "internal error" }
    (by decide) rfl).1

/-- C8: two-run noninterference over the verbose-logging flag — for a fixed
configuration and a fixed HTTP response, the returned result or raised
error (and the number of network calls) is identical whether
`print_token_response` is true or false; only the diagnostic log may
differ. -/
theorem verbose_logging_noninterference (cfg : Config) (resp : HttpResponse) :
    (runTokenFlow { cfg with print_token_response := true } resp).result =
      (runTokenFlow { cfg with print_token_response := false } resp).result ∧
    (runTokenFlow { cfg with print_token_response := true } resp).networkCalls =
      (runTokenFlow { cfg with print_token_response := false } resp).networkCalls := by
  have hf : ∀ b1 b2 : Bool, (fetchToken b1 resp).1 = (fetchToken b2 resp).1 := by
    intro b1 b2
    unfold fetchToken
    by_cases h : 200 ≤ resp.status ∧ resp.status ≤ 299
    · simp only [if_pos h]
      cases parseJson resp.body <;> simp
    · simp only [if_neg h]
  have hbt : buildTokenRequest { cfg with print_token_response := true } =
      buildTokenRequest cfg := rfl
  have hbf : buildTokenRequest { cfg with print_token_response := false } =
      buildTokenRequest cfg := rfl
  cases h : buildTokenRequest cfg with
  | error e => constructor <;> simp [runTokenFlow, hbt, hbf, h]
  | ok r =>
      constructor
      · simpa [runTokenFlow, hbt, hbf, h] using hf true false
      · simp [runTokenFlow, hbt, hbf, h]

/-- C9: request building is deterministic and idempotent — two builds from
the same configuration yield the same header mapping and the same body
bytes. -/
theorem build_idempotent (cfg : Config) (r1 r2 : TokenRequest)
    (h1 : buildTokenRequest cfg = .ok r1) (h2 : buildTokenRequest cfg = .ok r2) :
    r1.headers = r2.headers ∧ r1.body = r2.body := by
  rw [h1] at h2
  injection h2 with h
  subst h
  exact ⟨rfl, rfl⟩

/-- C9 witness: the theorem instantiated at a concrete configuration whose
build succeeds. -/
theorem build_idempotent_witness :
    exBuiltReq.headers = exBuiltReq.headers ∧ exBuiltReq.body = exBuiltReq.body :=
  build_idempotent exCfgBasic exBuiltReq exBuiltReq rfl rfl

/-- C10: decoration sets the `Authorization` header unconditionally
(overwriting, case-insensitively, any present value) and leaves every
other header and every other field of the outgoing request unchanged. -/
theorem decorate_frame (req : OutRequest) (tr : Json) :
    lookupCI "Authorization" (decorate req tr).headers = some (authHeaderValue tr) ∧
    (∀ k, lowerStr k ≠ "authorization" →
      lookupCI k (decorate req tr).headers = lookupCI k req.headers) ∧
    (decorate req tr).method = req.method ∧
    (decorate req tr).url = req.url ∧
    (decorate req tr).body = req.body := by
  refine ⟨?_, ?_, rfl, rfl, rfl⟩
  · exact lookupCI_setHeaderCI_same "Authorization" (authHeaderValue tr) req.headers
  · intro k hk
    exact lookupCI_setHeaderCI_other "Authorization" k (authHeaderValue tr) req.headers
      (by rw [show lowerStr "Authorization" = "authorization" from rfl]; exact hk)

/-- C10 witness: the theorem instantiated at a concrete request (which
already carries an `Authorization` header) and token response. -/
theorem decorate_frame_witness :
    lookupCI "Authorization" (decorate exOutReq exTokenObj2).headers =
      some (authHeaderValue exTokenObj2) ∧
    lookupCI "Accept" (decorate exOutReq exTokenObj2).headers =
      lookupCI "Accept" exOutReq.headers :=
  ⟨(decorate_frame exOutReq exTokenObj2).1,
   (decorate_frame exOutReq exTokenObj2).2.1 "Accept" (by decide)⟩
